import Mathlib

/-!
Verification of the browser-control layer of `browser-using-agent`.

The source under scrutiny is `src/computers/shared/base_playwright.py`
(`BasePlaywrightComputer` and the key-mapping table) together with the
backend adapters `src/computers/default/browserbase.py`
(`BrowserbaseBrowser`) and `src/computers/default/lumiteh.py`
(`LumiTehBrowser`).

The primitives are embedded as trace semantics: each action method is a
pure function returning the ordered list of low-level engine events
(pointer moves, button transitions, key transitions, navigation commands)
that the Python method issues against the Playwright `page` object.
Stateful lifecycle handlers (`_handle_page_close`, `__exit__`) are embedded
as explicit state-transition functions; Python exception propagation is
made explicit (an uncaught raising call terminates the method, skipping
the remaining statements).
-/

namespace BrowserAgent

/-- A low-level engine event, issued by an action primitive against the
Playwright page: pointer moves/clicks, key transitions, or navigation. -/
inductive Event where
  | mouseMove (x y : Int)
  | mouseDown
  | mouseUp
  | mouseClick (x y : Int) (button : String)
  | mouseDblClick (x y : Int)
  | mouseWheel (x y : Int)
  | keyDown (k : String)
  | keyUp (k : String)
  | goBack
  | goForward
  deriving DecidableEq, Repr

/-- `BasePlaywrightComputer.back`: `self._page.go_back()`. -/
def back : List Event := [Event.goBack]

/-- `BasePlaywrightComputer.forward`: `self._page.go_forward()`. -/
def forward : List Event := [Event.goForward]

/-- The local dict `button_mapping = {"left": "left", "right": "right"}` in
`BasePlaywrightComputer.click`. -/
def button_mapping : List (String × String) := [("left", "left"), ("right", "right")]

/-- `BasePlaywrightComputer.click`: the `match button` statement. `"back"`
and `"forward"` delegate to the navigation helpers, `"wheel"` issues a
wheel gesture at `(x, y)`, and the default arm clicks with
`button_mapping.get(button, "left")`. -/
def click (x y : Int) (button : String) : List Event :=
  if button = "back" then back
  else if button = "forward" then forward
  else if button = "wheel" then [Event.mouseWheel x y]
  else
    let button_type := (button_mapping.lookup button).getD "left"
    [Event.mouseClick x y button_type]

/-- `CUA_KEY_TO_PLAYWRIGHT_KEY` from `base_playwright.py`, verbatim. -/
def CUA_KEY_TO_PLAYWRIGHT_KEY : List (String × String) :=
  [("/", "Divide"),
   ("\\", "Backslash"),
   ("alt", "Alt"),
   ("arrowdown", "ArrowDown"),
   ("arrowleft", "ArrowLeft"),
   ("arrowright", "ArrowRight"),
   ("arrowup", "ArrowUp"),
   ("backspace", "Backspace"),
   ("capslock", "CapsLock"),
   ("cmd", "Meta"),
   ("ctrl", "Control"),
   ("delete", "Delete"),
   ("end", "End"),
   ("enter", "Enter"),
   ("esc", "Escape"),
   ("home", "Home"),
   ("insert", "Insert"),
   ("option", "Alt"),
   ("pagedown", "PageDown"),
   ("pageup", "PageUp"),
   ("shift", "Shift"),
   ("space", " "),
   ("super", "Meta"),
   ("tab", "Tab"),
   ("win", "Meta")]

/-- Python's `str.lower()` restricted to ASCII, embedded character-wise
(every name in the key-mapping table and every key name sent by the agent
protocol is ASCII). -/
def lower (s : String) : String := String.mk (s.data.map Char.toLower)

/-- `BasePlaywrightComputer.keypress`: map each key through
`CUA_KEY_TO_PLAYWRIGHT_KEY.get(key.lower(), key)`, press all mapped keys
down in listed order, then release them in reversed order. -/
def keypress (keys : List String) : List Event :=
  let mapped_keys := keys.map (fun key => (CUA_KEY_TO_PLAYWRIGHT_KEY.lookup (lower key)).getD key)
  mapped_keys.map Event.keyDown ++ mapped_keys.reverse.map Event.keyUp

/-- The spec's description of the key-mapping step: look the name up
case-insensitively in the Key Mapping Table; names absent from the table
pass through unchanged (identity fallback). Stated separately from
`keypress` so the trace equation below ties the code to the spec's words. -/
def mapKeySpec (k : String) : String :=
  match CUA_KEY_TO_PLAYWRIGHT_KEY.lookup (lower k) with
  | some v => v
  | none => k

/-- `BasePlaywrightComputer.drag`: return immediately on an empty path;
otherwise move to the first point, press down, move through `path[1:]` in
order, release. -/
def drag (path : List (Int × Int)) : List Event :=
  match path with
  | [] => []
  | p :: rest =>
    Event.mouseMove p.1 p.2 :: Event.mouseDown ::
      (rest.map (fun q => Event.mouseMove q.1 q.2) ++ [Event.mouseUp])

/-- `BrowserbaseBrowser._handle_page_close` / `LumiTehBrowser._handle_page_close`
(the two bodies are identical). Pages are identified by abstract ids.
`current` is `self._page` when the handler runs, `closing` the page passed
to the handler, and `contextPages` is `self._browser.contexts[0].pages` at
that moment (the closed page is no longer in it). Returns the new
`self._page` and whether the all-pages-closed warning was printed:
`self._page = pages[-1] if pages else None`, warning iff `pages` is empty. -/
def handle_page_close (current : Option Nat) (closing : Nat) (contextPages : List Nat) :
    Option Nat × Bool :=
  if current = some closing then
    (contextPages.getLast?, contextPages.isEmpty)
  else
    (current, false)

/-- One teardown step of `BrowserbaseBrowser.__exit__` /
`LumiTehBrowser.__exit__` (the two bodies differ only in the logged URL). -/
inductive TStep where
  | closePage
  | closeBrowser
  | stopPlaywright
  | logSession
  deriving DecidableEq, Repr

/-- `BrowserbaseBrowser.__exit__` / `LumiTehBrowser.__exit__`: four guarded
statements in source order, `self._page.close()`, `self._browser.close()`,
`self._playwright.stop()`, then the session print. The method has no
try/except, so per Python semantics a raising call exits the method at
once and the remaining statements never run. The four `has...` flags model
the truthiness guards, `fails s = true` models the call for step `s`
raising. Returns the list of steps whose call was attempted, in order, and
whether an exception escaped `__exit__`. -/
def exit_teardown (hasPage hasBrowser hasPlaywright hasSession : Bool)
    (fails : TStep → Bool) : List TStep × Bool :=
  if hasPage && fails TStep.closePage then ([TStep.closePage], true)
  else
    let s1 := if hasPage then [TStep.closePage] else []
    if hasBrowser && fails TStep.closeBrowser then (s1 ++ [TStep.closeBrowser], true)
    else
      let s2 := s1 ++ (if hasBrowser then [TStep.closeBrowser] else [])
      if hasPlaywright && fails TStep.stopPlaywright then (s2 ++ [TStep.stopPlaywright], true)
      else
        let s3 := s2 ++ (if hasPlaywright then [TStep.stopPlaywright] else [])
        (s3 ++ (if hasSession then [TStep.logSession] else []), false)

/-- Outcome of the per-request route handler. -/
inductive RouteOutcome where
  | aborted
  | continued
  deriving DecidableEq, Repr

/-- `handle_route` from `BasePlaywrightComputer.__enter__`: abort the
request when `check_blocklisted_url(url)` holds, otherwise continue it.
The checker itself lives in `bua.utils`, outside these sources, so it is
passed in as the policy predicate. -/
def handle_route (check_blocklisted_url : String → Bool) (url : String) : RouteOutcome :=
  if check_blocklisted_url url then RouteOutcome.aborted else RouteOutcome.continued

/-- The host component of a URL: the part before the first slash. -/
def urlHost (url : String) : String := String.mk (url.data.takeWhile (fun c => c ≠ '/'))

/-- Modelled from the spec: `check_blocklisted_url` (in `bua.utils`, not
among the sources) decides whether a request URL targets a blocklisted
host — "a policy set of network hosts/URLs whose requests are proactively
aborted". -/
def check_blocklisted_url_spec (blocklist : List String) (url : String) : Bool :=
  blocklist.any (fun h => urlHost url == h)

/-- A selector descriptor is kept abstract (an id); an element handle
likewise. Whether a selector resolves on the current page is the
environment `resolves`. -/
def locate_element (resolves : Nat → Option Nat) : List Nat → Option Nat
  | [] => none
  | s :: rest =>
    match resolves s with
    | some h => some h
    | none => locate_element resolves rest

/-- The action variants dispatched by `execute_action`: `BrowserAction`
(navigation verb, no element), `InteractionAction` (verb plus an optional
selectors list — `None` in Python when unset), or any other `BaseAction`
subtype. -/
inductive BAction where
  | browser (verb : String)
  | interaction (verb : String) (selectors : Option (List Nat))
  | other
  deriving DecidableEq, Repr

/-- Errors `execute_action` can raise: the `assert action.selectors is not
None` failing, element resolution finding no selector match, or the
invalid-action `ValueError`. -/
inductive ExecError where
  | assertionError
  | elementResolutionError
  | invalidActionError
  deriving DecidableEq, Repr

/-- Observable effects of a successful `execute_action` dispatch. -/
inductive ExecEvent where
  | browserVerb (verb : String)
  | interactionVerb (verb : String) (handle : Nat)
  | settleWait
  deriving DecidableEq, Repr

/-- `BasePlaywrightComputer.execute_action`. A `BrowserAction` executes its
verb directly; an `InteractionAction` first passes the assert
`action.selectors is not None`, then resolves the selectors through the
Element Locator before executing the verb against the resolved handle; any
other variant raises `ValueError`. `short_wait` runs after a successful
dispatch. The Element Locator (`locate_element`, from `bua.computers.actions`,
not among the sources) is modelled from the spec: it tries each selector in
order and returns the first resolvable handle; if every selector fails — in
particular when the list is empty — resolution fails with a not-found
error. -/
def execute_action (resolves : Nat → Option Nat) (a : BAction) :
    Except ExecError (List ExecEvent) :=
  match a with
  | BAction.browser v => Except.ok [ExecEvent.browserVerb v, ExecEvent.settleWait]
  | BAction.interaction _ none => Except.error ExecError.assertionError
  | BAction.interaction v (some sels) =>
    match locate_element resolves sels with
    | none => Except.error ExecError.elementResolutionError
    | some h => Except.ok [ExecEvent.interactionVerb v h, ExecEvent.settleWait]
  | BAction.other => Except.error ExecError.invalidActionError

/-- The base64 alphabet used by Python's `base64.b64encode`. -/
def b64Alphabet : List Char :=
  "ABCDEFGHIJKLMNOPQRSTUVWXYZabcdefghijklmnopqrstuvwxyz0123456789+/".data

/-- The base64 digit for a 6-bit value. -/
def b64Char (n : Nat) : Char := b64Alphabet.getD n 'A'

/-- Standard base64 of a byte list (RFC 4648, as `base64.b64encode`):
3-byte groups become 4 digits, trailing groups are padded with `=`. -/
def base64EncodeAux : List Nat → List Char
  | [] => []
  | [a] =>
    [b64Char (a % 256 / 4), b64Char (a % 4 * 16), '=', '=']
  | [a, b] =>
    [b64Char (a % 256 / 4), b64Char (a % 4 * 16 + b % 256 / 16),
     b64Char (b % 16 * 4), '=']
  | a :: b :: c :: rest =>
    b64Char (a % 256 / 4) :: b64Char (a % 4 * 16 + b % 256 / 16) ::
      b64Char (b % 16 * 4 + c % 256 / 64) :: b64Char (c % 64) ::
      base64EncodeAux rest

/-- Base64 of a byte list as a string. -/
def base64Encode (bytes : List Nat) : String := String.mk (base64EncodeAux bytes)

/-- `BasePlaywrightComputer.screenshot`: capture the viewport PNG
(`full_page=False`) and return its base64 encoding. `viewportPng` is the
byte string produced by the engine's default viewport capture. -/
def base_screenshot (viewportPng : List Nat) : String := base64Encode viewportPng

/-- `BrowserbaseBrowser.screenshot` / `LumiTehBrowser.screenshot`: attempt
the CDP `Page.captureScreenshot` call; on success return its `data` field,
on a raised `PlaywrightError` fall back to the inherited
`BasePlaywrightComputer.screenshot`. `cdpResult` is the outcome of the
specialized capture attempt (the CDP calls report failure by raising
`PlaywrightError`, which the `except` arm catches). -/
def screenshot_override (cdpResult : Except Unit String) (viewportPng : List Nat) : String :=
  match cdpResult with
  | Except.ok data => data
  | Except.error _ => base_screenshot viewportPng

/-- `BasePlaywrightComputer.get_dimensions`: the constant `(1280, 1080)`. -/
def base_get_dimensions : Nat × Nat := (1280, 1080)

/-- `BrowserbaseBrowser.get_dimensions`: returns `self.dimensions`, the
`(width, height)` stored by the constructor (defaults 1024 and 768). -/
def browserbase_get_dimensions (dimensions : Nat × Nat) : Nat × Nat := dimensions

/-- `LumiTehBrowser` stores `self.dimensions = (width, height)` in its
constructor (defaults 1024 and 768) but defines no `get_dimensions`
override, so the inherited `BasePlaywrightComputer.get_dimensions` runs
and the stored dimensions are ignored. -/
def lumiteh_get_dimensions (dimensions : Nat × Nat) : Nat × Nat := base_get_dimensions

end BrowserAgent

namespace BrowserAgent

/-- C2: `click(x, y, "back")` and `click(x, y, "forward")` perform only the
corresponding history navigation and no pointer click; `click(x, y,
"wheel")` performs only a wheel-scroll gesture at `(x, y)`; any other
button value different from `"right"` performs a left pointer click at
`(x, y)`. -/
theorem click_button_semantics (x y : Int) (b : String) :
    (b = "back" → click x y b = [Event.goBack]) ∧
    (b = "forward" → click x y b = [Event.goForward]) ∧
    (b = "wheel" → click x y b = [Event.mouseWheel x y]) ∧
    (b ≠ "back" → b ≠ "forward" → b ≠ "wheel" → b ≠ "right" →
      click x y b = [Event.mouseClick x y "left"]) := by
  refine ⟨fun h => ?_, fun h => ?_, fun h => ?_, fun h1 h2 h3 h4 => ?_⟩
  · simp [click, h, back]
  · simp [click, h, forward, back]
  · simp [click, h]
  · simp only [click, if_neg h1, if_neg h2, if_neg h3]
    have hlook : (button_mapping.lookup b).getD "left" = "left" := by
      by_cases hL : b = "left"
      · simp [button_mapping, hL, List.lookup]
      · have hbl : (b == "left") = false := beq_eq_false_iff_ne.mpr hL
        have hbr : (b == "right") = false := beq_eq_false_iff_ne.mpr h4
        simp [button_mapping, List.lookup, hbl, hbr]
    rw [hlook]

/-- Witness for C2 at concrete buttons. -/
theorem click_button_semantics_witness :
    click 1 2 "back" = [Event.goBack] ∧
    click 1 2 "middle" = [Event.mouseClick 1 2 "left"] :=
  ⟨(click_button_semantics 1 2 "back").1 rfl,
   (click_button_semantics 1 2 "middle").2.2.2
     (by decide) (by decide) (by decide) (by decide)⟩

/-- C6: `keypress(keys)` maps every name case-insensitively through the
key-mapping table (absent names pass through unchanged), presses the
mapped keys down in listed order, then releases them in strict reverse
order — for every list, duplicates included. -/
theorem keypress_chord_order (keys : List String) :
    keypress keys =
      (keys.map mapKeySpec).map Event.keyDown ++
        ((keys.map mapKeySpec).reverse).map Event.keyUp ∧
    (∀ k v, CUA_KEY_TO_PLAYWRIGHT_KEY.lookup (lower k) = some v → mapKeySpec k = v) ∧
    (∀ k, CUA_KEY_TO_PLAYWRIGHT_KEY.lookup (lower k) = none → mapKeySpec k = k) := by
  have hfun : (fun key : String => (CUA_KEY_TO_PLAYWRIGHT_KEY.lookup (lower key)).getD key)
      = mapKeySpec := by
    funext k
    simp only [mapKeySpec]
    cases CUA_KEY_TO_PLAYWRIGHT_KEY.lookup (lower k) <;> rfl
  refine ⟨?_, fun k v h => ?_, fun k h => ?_⟩
  · simp only [keypress, hfun]
  · simp [mapKeySpec, h]
  · simp [mapKeySpec, h]

/-- Witness for C6 on a concrete chord with a mapped, an unmapped and an
uppercase name. -/
theorem keypress_chord_order_witness :
    keypress ["CTRL", "shift", "x"] =
      [Event.keyDown "Control", Event.keyDown "Shift", Event.keyDown "x",
       Event.keyUp "x", Event.keyUp "Shift", Event.keyUp "Control"] := by
  have h := (keypress_chord_order ["CTRL", "shift", "x"]).1
  rw [h]; rfl

/-- C7: `drag([])` issues no event at all; `drag(p :: rest)` issues exactly
one move to `p`, one button-down, one move per subsequent point in order,
and one button-up — a single gesture with exactly one down/up pair. -/
theorem drag_single_gesture (p : Int × Int) (rest : List (Int × Int)) :
    drag [] = [] ∧
    drag (p :: rest) =
      Event.mouseMove p.1 p.2 :: Event.mouseDown ::
        (rest.map (fun q => Event.mouseMove q.1 q.2) ++ [Event.mouseUp]) ∧
    (drag (p :: rest)).count Event.mouseDown = 1 ∧
    (drag (p :: rest)).count Event.mouseUp = 1 := by
  have hdown : (rest.map (fun q => Event.mouseMove q.1 q.2)).count Event.mouseDown = 0 := by
    apply List.count_eq_zero.mpr
    intro hmem
    rcases List.mem_map.mp hmem with ⟨q, _, hq⟩
    exact Event.noConfusion hq
  have hup : (rest.map (fun q => Event.mouseMove q.1 q.2)).count Event.mouseUp = 0 := by
    apply List.count_eq_zero.mpr
    intro hmem
    rcases List.mem_map.mp hmem with ⟨q, _, hq⟩
    exact Event.noConfusion hq
  refine ⟨rfl, rfl, ?_, ?_⟩
  · simp [drag, List.count_cons, List.count_append, hdown]
  · simp [drag, List.count_cons, List.count_append, hup]

/-- C3: when the closing page is the current page, the handler reassigns
the current-page reference to the last remaining open page of the first
context, or clears it to none and emits the warning when no page remains. -/
theorem handle_page_close_reassigns_current (current : Option Nat) (closing : Nat)
    (pages : List Nat) (h : current = some closing) :
    (∀ p ps, pages = ps ++ [p] →
      handle_page_close current closing pages = (some p, false)) ∧
    (pages = [] → handle_page_close current closing pages = (none, true)) := by
  constructor
  · intro p ps hps
    subst hps
    simp [handle_page_close, h]
  · intro hp
    subst hp
    simp [handle_page_close, h]

/-- Witness for C3: closing current page 2 with pages [0, 1] remaining
makes page 1 current without a warning; with no page remaining the
reference is cleared and the warning fires. -/
theorem handle_page_close_reassigns_current_witness :
    handle_page_close (some 2) 2 [0, 1] = (some 1, false) ∧
    handle_page_close (some 2) 2 [] = (none, true) :=
  ⟨(handle_page_close_reassigns_current (some 2) 2 [0, 1] rfl).1 1 [0] rfl,
   (handle_page_close_reassigns_current (some 2) 2 [] rfl).2 rfl⟩

/-- C10: when the closing page is not the current page (including when no
current page is set), the handler leaves the current-page reference
unchanged and emits no warning. -/
theorem handle_page_close_background_noop (current : Option Nat) (closing : Nat)
    (pages : List Nat) (h : current ≠ some closing) :
    handle_page_close current closing pages = (current, false) := by
  simp [handle_page_close, h]

/-- Witness for C10: closing background page 2 while page 1 is current
leaves page 1 current. -/
theorem handle_page_close_background_noop_witness :
    handle_page_close (some 1) 2 [1] = (some 1, false) :=
  handle_page_close_background_noop (some 1) 2 [1] (by decide)

/-- C4 counterexample: in a teardown where every resource is present and
closing the current page raises, only the page-close step is attempted —
the browser-close and engine-stop steps are skipped and the exception
escapes, contradicting the claim that every subsequent step still runs. -/
theorem exit_teardown_counterexample :
    exit_teardown true true true true (fun s => s == TStep.closePage)
      = ([TStep.closePage], true) ∧
    TStep.closeBrowser ∉ (exit_teardown true true true true
      (fun s => s == TStep.closePage)).1 ∧
    TStep.stopPlaywright ∉ (exit_teardown true true true true
      (fun s => s == TStep.closePage)).1 := by
  refine ⟨rfl, ?_, ?_⟩ <;> decide

/-- C4 amended: the teardown steps run in the order page close, connection
close, engine stop, session log; when no step raises, every present step
executes in that order; but a raising step propagates out of the scoped
exit and the steps after it are not attempted. -/
theorem exit_teardown_order (hasPage hasBrowser hasPlaywright hasSession : Bool)
    (fails : TStep → Bool) (hok : ∀ s, fails s = false) :
    exit_teardown hasPage hasBrowser hasPlaywright hasSession fails =
      ((if hasPage then [TStep.closePage] else []) ++
       (if hasBrowser then [TStep.closeBrowser] else []) ++
       (if hasPlaywright then [TStep.stopPlaywright] else []) ++
       (if hasSession then [TStep.logSession] else []), false) ∧
    (hasPage = true → exit_teardown hasPage hasBrowser hasPlaywright hasSession
        (fun s => s == TStep.closePage) = ([TStep.closePage], true)) := by
  constructor
  · simp [exit_teardown, hok, List.append_assoc]
  · intro hp
    subst hp
    simp [exit_teardown]

/-- Witness for the amended C4: with all resources present and no failing
step, all four steps run in source order; with `_page.close()` raising,
the teardown stops after that step. -/
theorem exit_teardown_order_witness :
    exit_teardown true true true true (fun _ => false) =
      ([TStep.closePage, TStep.closeBrowser, TStep.stopPlaywright, TStep.logSession], false) ∧
    exit_teardown true true true true (fun s => s == TStep.closePage)
      = ([TStep.closePage], true) :=
  ⟨(exit_teardown_order true true true true (fun _ => false) (fun _ => rfl)).1,
   (exit_teardown_order true true true true (fun _ => false) (fun _ => rfl)).2 rfl⟩

/-- C5: the route handler aborts every request whose URL the blocklist
checker flags and continues every other request; a blocklisted request is
never continued. -/
theorem handle_route_blocklist (check_blocklisted_url : String → Bool) (url : String) :
    (check_blocklisted_url url = true →
      handle_route check_blocklisted_url url = RouteOutcome.aborted) ∧
    (check_blocklisted_url url = false →
      handle_route check_blocklisted_url url = RouteOutcome.continued) ∧
    (check_blocklisted_url url = true →
      handle_route check_blocklisted_url url ≠ RouteOutcome.continued) := by
  refine ⟨fun h => ?_, fun h => ?_, fun h => ?_⟩ <;> simp [handle_route, h]

/-- Witness for C5, the spec's scenario: with `ads.example.com`
blocklisted, a request to `ads.example.com/x.js` is aborted and one to
`cdn.example.com/y.js` is continued. -/
theorem handle_route_blocklist_witness :
    handle_route (check_blocklisted_url_spec ["ads.example.com"]) "ads.example.com/x.js"
      = RouteOutcome.aborted ∧
    handle_route (check_blocklisted_url_spec ["ads.example.com"]) "cdn.example.com/y.js"
      = RouteOutcome.continued :=
  ⟨(handle_route_blocklist (check_blocklisted_url_spec ["ads.example.com"])
      "ads.example.com/x.js").1 (by decide),
   (handle_route_blocklist (check_blocklisted_url_spec ["ads.example.com"])
      "cdn.example.com/y.js").2.1 (by decide)⟩

/-- C1: `execute_action` on an `InteractionAction` whose selectors are
missing fails the assert, and on an empty selectors list fails element
resolution; in both cases it returns an error and never a successful
dispatch, whatever the page's resolvable elements — so no verb is ever
executed against any element. -/
theorem execute_action_empty_selectors (resolves : Nat → Option Nat) (v : String) :
    execute_action resolves (BAction.interaction v none)
      = Except.error ExecError.assertionError ∧
    execute_action resolves (BAction.interaction v (some []))
      = Except.error ExecError.elementResolutionError ∧
    (∀ tr, execute_action resolves (BAction.interaction v none) ≠ Except.ok tr) ∧
    (∀ tr, execute_action resolves (BAction.interaction v (some [])) ≠ Except.ok tr) := by
  refine ⟨rfl, rfl, ?_, ?_⟩ <;> · intro tr h
                                  simp [execute_action, locate_element] at h

/-- Witness for C1 on a page where every selector would resolve. -/
theorem execute_action_empty_selectors_witness :
    execute_action (fun _ => some 0) (BAction.interaction "click" (some []))
      = Except.error ExecError.elementResolutionError ∧
    execute_action (fun _ => some 0) (BAction.interaction "click" none)
      = Except.error ExecError.assertionError :=
  ⟨(execute_action_empty_selectors (fun _ => some 0) "click").2.1,
   (execute_action_empty_selectors (fun _ => some 0) "click").1⟩

/-- C8: when the specialized CDP capture fails, `screenshot()` returns
exactly the default viewport path's base64 PNG result, and when the CDP
capture succeeds its data is returned — the specialized failure is never
surfaced as an error in either case. -/
theorem screenshot_fallback_on_cdp_failure (viewportPng : List Nat) :
    screenshot_override (Except.error ()) viewportPng = base_screenshot viewportPng ∧
    screenshot_override (Except.error ()) viewportPng = base64Encode viewportPng ∧
    (∀ d, screenshot_override (Except.ok d) viewportPng = d) :=
  ⟨rfl, rfl, fun _ => rfl⟩

/-- C9: evaluating the code at the failing input — a `LumiTehBrowser`
constructed with its default viewport 1024 by 768 reports the inherited
constant 1280 by 1080 instead of its configured viewport, while
`BrowserbaseBrowser` reports the configured viewport. -/
theorem lumiteh_dimensions_ignored :
    lumiteh_get_dimensions (1024, 768) = (1280, 1080) ∧
    lumiteh_get_dimensions (1024, 768) ≠ (1024, 768) ∧
    browserbase_get_dimensions (1024, 768) = (1024, 768) := by
  refine ⟨rfl, ?_, rfl⟩
  decide

end BrowserAgent
